import Mathlib

/-!
# Verification of the metric normalization and fallback contract

Shallow embedding of the data layer of the taleemabad observability
dashboard (`src/data/*.py`, `src/scripts/refresh_cache.py`).

Modelling conventions:
* Python dictionaries returned by metric operations are embedded as
  insertion-ordered association lists `List (String × JVal)`.
* Upstream database interaction (`db_connections.py`) is embedded as a
  `DbOutcome` value per query: the connection may be unreachable, the
  query may raise (the adapters catch the exception), or a list of rows
  is returned. The `query_*` helpers return `[]` on any failure, which
  `queryRows` reproduces.
* Python `round(x, 1)` is embedded as `pyRound1` over `ℚ` (round half
  away handled by Mathlib's `round`; Python's float half-to-even tie
  behaviour is not observable in any claim proved here).
* Machine ints from SQL `COUNT`/aggregates are embedded as `ℤ`,
  rates as `ℚ`.
-/

/-- JSON-like values appearing in metric record fields. `vnull` embeds
Python `None`. `vdictQ` embeds the FICO section dictionaries (string
keys to numeric scores); `vsubj` embeds the Moawin subject-score rows. -/
inductive JVal where
  | vnull
  | vnum (q : ℚ)
  | vstr (s : String)
  | vdictQ (d : List (String × ℚ))
  | vsubj (l : List (String × ℚ × ℚ × ℤ))
deriving DecidableEq, Repr

/-- A Metric Record: a Python dict embedded as an association list. -/
abbrev Rec := List (String × JVal)

/-- A per-region metric result: region name to Metric Record. -/
abbrev RegionResults := List (String × Rec)

/-- Dictionary field lookup (first binding wins; the embedded dict
literals never repeat keys). -/
def findField : Rec → String → Option JVal
  | [], _ => none
  | (k, v) :: rest, key => if k = key then some v else findField rest key

/-- Region lookup in a metric result, defaulting to the empty record. -/
def findRegion (rs : RegionResults) (name : String) : Rec :=
  match rs.find? (fun p => p.1 = name) with
  | some p => p.2
  | none => []

/-- `None` is the only null value. -/
def JVal.isNull : JVal → Bool
  | .vnull => true
  | _ => false

/-- Python `round(x, 1)` on a rational. -/
def pyRound1 (q : ℚ) : ℚ := ((round (q * 10) : ℤ) : ℚ) / 10

/-- Python `round(x)` / `round(x, 0)` to an integer-valued rational. -/
def pyRound0 (q : ℚ) : ℚ := ((round q : ℤ) : ℚ)

/-- Python `int(row.get(key, 0) or 0)` over a nullable column. -/
def orZero : Option ℤ → ℤ
  | some n => n
  | none => 0

/-- Python `float(row.get(key, 0) or 0)` over a nullable numeric column
(`or 0` maps both `None` and `0` to `0`, which on numbers is `getD 0`). -/
def orZeroQ : Option ℚ → ℚ
  | some q => q
  | none => 0

/-- Python truthiness of a nullable integer column (`None` and `0` are
falsy). -/
def truthyInt : Option ℤ → Bool
  | some n => n ≠ 0
  | none => false

/-- Outcome of one upstream interaction: connection unavailable, query
raised an exception (caught by the adapter / `query_*` helper), or rows
returned. -/
inductive DbOutcome (α : Type) where
  | unreachable
  | queryError
  | ok (rows : List α)

/-- Semantics of `query_balochistan` / `query_islamabad` /
`query_moawin_direct` / `query_rumi` (`db_connections.py`): a row list
on success, `[]` on connection failure or a caught exception. -/
def queryRows : DbOutcome α → List α
  | .ok rows => rows
  | _ => []

/-! ## Static configuration (`common_metrics.py`) -/

/-- `REGIONS` (`common_metrics.py` line 24). -/
def REGIONS : List String := ["ICT", "Balochistan", "RWP", "Moawin", "Rumi"]

/-- One entry of `OBSERVATION_BENCHMARKS`. -/
structure Benchmark where
  coaches : ℤ
  obs_per_day : ℤ
  working_days_per_month : ℤ
deriving DecidableEq, Repr

/-- `OBSERVATION_BENCHMARKS` (`common_metrics.py` lines 36-42). -/
def OBSERVATION_BENCHMARKS : List (String × Option Benchmark) :=
  [ ("ICT", some ⟨55, 4, 22⟩),
    ("RWP", some ⟨27, 4, 22⟩),
    ("Balochistan", none),
    ("Moawin", none),
    ("Rumi", none) ]

/-- Benchmark dictionary lookup. -/
def getBench (region : String) : Option Benchmark :=
  match OBSERVATION_BENCHMARKS.find? (fun p => p.1 = region) with
  | some (_, some b) => some b
  | _ => none

/-- `bm["coaches"] * bm["obs_per_day"] * bm["working_days_per_month"]`. -/
def benchmarkMonthly (b : Benchmark) : ℤ :=
  b.coaches * b.obs_per_day * b.working_days_per_month

/-- The monthly benchmark the source computes for a region with a
configured benchmark (the source only evaluates this on `ICT`/`RWP`,
where the lookup succeeds). -/
def benchMonthlyD (region : String) : ℤ :=
  match getBench region with
  | some b => benchmarkMonthly b
  | none => 0

/-! ## Source adapter: observation counts -/

/-- Normalized output of `get_observation_counts` in every adapter. -/
structure ObsCounts where
  ai_count : ℤ
  human_count : ℤ
  total : ℤ
deriving DecidableEq, Repr

/-- A row of the Balochistan observation-count query (nullable
aggregates read with `.get(..., 0) or 0`). -/
structure BalObsRow where
  ai_count : Option ℤ
  human_count : Option ℤ
deriving DecidableEq, Repr

/-- `balochistan_queries.get_observation_counts` (lines 142-193): live
branch when a connection exists, the query does not raise and returns at
least one row; otherwise the `BALOCHISTAN_KNOWN_VALUES` fallback
(ai 522, human 54). The observation-type filter is applied in both
branches. -/
def bal_get_observation_counts (db : DbOutcome BalObsRow)
    (obs_type : String) : ObsCounts :=
  match db with
  | .ok (r :: _) =>
      let ai := orZero r.ai_count
      let human := orZero r.human_count
      if obs_type = "AI Only (Rumi)" then ⟨ai, 0, ai⟩
      else if obs_type = "Human Only (Coaches)" then ⟨0, human, human⟩
      else ⟨ai, human, ai + human⟩
  | _ =>
      let ai : ℤ := 522
      let human : ℤ := 54
      if obs_type = "AI Only (Rumi)" then ⟨ai, 0, ai⟩
      else if obs_type = "Human Only (Coaches)" then ⟨0, human, human⟩
      else ⟨ai, human, ai + human⟩

/-- `islamabad_queries.get_observation_count` (lines 35-44): count of
TEACH observations, falling back to the known value 2423. -/
def isl_get_observation_count (db : DbOutcome ℤ) : ℤ :=
  match queryRows db with
  | c :: _ => c
  | [] => 2423

/-- `islamabad_queries.get_observation_counts` (lines 219-239): BigQuery
has human observations only. -/
def isl_get_observation_counts (db : DbOutcome ℤ) (obs_type : String) :
    ObsCounts :=
  if obs_type = "AI Only (Rumi)" then ⟨0, 0, 0⟩
  else
    let human := isl_get_observation_count db
    if obs_type = "Human Only (Coaches)" then ⟨0, human, human⟩
    else ⟨0, human, human⟩

/-- A row of the Rumi coaching-session count query. -/
structure RumiObsRow where
  completed : Option ℤ
  total : Option ℤ
deriving DecidableEq, Repr

/-- `rumi_queries.get_observation_counts` (lines 100-131): completed
coaching sessions as AI count, falling back to the known value 135.
(The live branch returns `total = ai_count`, discarding the raw total.) -/
def rumi_get_observation_counts (db : DbOutcome RumiObsRow)
    (obs_type : String) : ObsCounts :=
  if obs_type = "Human Only (Coaches)" then ⟨0, 0, 0⟩
  else
    match queryRows db with
    | r :: _ =>
        let ai := orZero r.completed
        ⟨ai, 0, ai⟩
    | [] => ⟨135, 0, 135⟩

/-- `moawin_queries.get_observation_counts` (lines 273-283): SchoolPilot
has no observation data; all counts are zero. (The source dict also
carries an explanatory `note` string, not modelled in `ObsCounts`.) -/
def moawin_get_observation_counts (_obs_type : String) : ObsCounts :=
  ⟨0, 0, 0⟩

/-! ## Metric 1: `get_observation_metrics` (`common_metrics.py` 141-195) -/

/-- `get_observation_metrics`: the six-region observation dictionary.
Parameters are the upstream outcomes of the three adapter calls
(`islamabad_queries.get_observation_counts()`,
`balochistan_queries.get_observation_counts()`,
`rumi_queries.get_observation_counts()`, each with the default
"All Observations" filter). -/
def get_observation_metrics (dbIsl : DbOutcome ℤ) (dbBal : DbOutcome BalObsRow)
    (dbRumi : DbOutcome RumiObsRow) : RegionResults :=
  let ict_obs := isl_get_observation_counts dbIsl "All Observations"
  let bal_obs := bal_get_observation_counts dbBal "All Observations"
  let rumi_obs := rumi_get_observation_counts dbRumi "All Observations"
  [ ("ICT",
      [ ("actual", .vnum ict_obs.total),
        ("benchmark_monthly", .vnum (benchMonthlyD "ICT")),
        ("type", .vstr "Human (TEACH)"),
        ("status", .vstr "active") ]),
    ("Balochistan",
      [ ("actual", .vnum bal_obs.total),
        ("ai", .vnum bal_obs.ai_count),
        ("human", .vnum bal_obs.human_count),
        ("benchmark_monthly", .vnull),
        ("type", .vstr "AI + Human"),
        ("status", .vstr "active") ]),
    ("RWP",
      [ ("actual", .vnum 0),
        ("benchmark_monthly", .vnum (benchMonthlyD "RWP")),
        ("type", .vnull),
        ("status", .vstr "launching_q2_2026") ]),
    ("Moawin",
      [ ("actual", .vnull),
        ("benchmark_monthly", .vnull),
        ("type", .vnull),
        ("status", .vstr "not_applicable") ]),
    ("Rumi",
      [ ("actual", .vnum rumi_obs.ai_count),
        ("benchmark_monthly", .vnull),
        ("type", .vstr "AI Audio Coaching"),
        ("status", .vstr "active") ]) ]

/-! ## Metric 2: `get_lp_engagement_metrics` (`common_metrics.py` 202-260) -/

/-- A row of the BigQuery `unified_lp_usage` aggregation. -/
structure BqLpRow where
  program : String
  total_events : Option ℤ
  unique_teachers : Option ℤ

/-- Last row whose lowercased program equals `key`: reproduces the
Python dict build (`bq_data[prog] = ...` lets later rows overwrite
earlier ones) followed by `bq_data.get(key, {})`. -/
def lastProgMatch (rows : List α) (progOf : α → String) (key : String) :
    Option α :=
  rows.foldl (fun acc r => if (progOf r).toLower = key then some r else acc)
    none

/-- `bq_data.get(bq_key, {})` for the LP-usage query, with the
`int(... or 0)` normalization applied per field. -/
def bqLpLookup (db : DbOutcome BqLpRow) (key : String) : Option (ℤ × ℤ) :=
  match lastProgMatch (queryRows db) (·.program) key with
  | some r => some (orZero r.total_events, orZero r.unique_teachers)
  | none => none

/-- The per-region record built in the `for region, bq_key in ...` loop
of `get_lp_engagement_metrics`. -/
def lpRegionRec (d : Option (ℤ × ℤ)) : Rec :=
  let total := (d.map Prod.fst).getD 0
  let teachers := (d.map Prod.snd).getD 0
  [ ("total_events", .vnum total),
    ("unique_teachers", .vnum teachers),
    ("per_teacher",
      .vnum (if teachers > 0 then pyRound1 ((total : ℚ) / (teachers : ℚ))
             else 0)),
    ("status", .vstr (if total > 0 then "active" else "no_data")) ]

/-- A row of the Moawin `task_completions` aggregate (`COUNT` results,
never null in the source's reading). -/
structure MoTaskRow where
  total : ℤ
  completed : ℤ

/-- Output shape of `moawin_queries.get_task_completion_rate`. -/
structure TaskStats where
  total_tasks : ℤ
  completed : ℤ
  completion_rate : ℚ

/-- `moawin_queries.get_task_completion_rate` (lines 215-240). -/
def moawin_get_task_completion_rate (db : DbOutcome MoTaskRow) : TaskStats :=
  match queryRows db with
  | r :: _ =>
      ⟨r.total, r.completed,
        pyRound1 (if r.total > 0 then (r.completed : ℚ) / r.total * 100
                  else 0)⟩
  | [] => ⟨0, 0, 0⟩

/-- A row of the Rumi `lesson_plans` aggregate. -/
structure RumiLpRow where
  total : Option ℤ
  unique_teachers : Option ℤ

/-- Output shape of `rumi_queries.get_lesson_plan_metrics`. -/
structure RumiLp where
  total_plans : ℤ
  unique_teachers : ℤ
deriving DecidableEq, Repr

/-- `rumi_queries.get_lesson_plan_metrics` (lines 211-234): live counts
or the known fallback (1815 plans, 0 teachers). -/
def rumi_get_lesson_plan_metrics (db : DbOutcome RumiLpRow) : RumiLp :=
  match queryRows db with
  | r :: _ => ⟨orZero r.total, orZero r.unique_teachers⟩
  | [] => ⟨1815, 0⟩

/-- `get_lp_engagement_metrics`: lesson-plan engagement per region. -/
def get_lp_engagement_metrics (bqDb : DbOutcome BqLpRow)
    (moTaskDb : DbOutcome MoTaskRow) (rumiLpDb : DbOutcome RumiLpRow) :
    RegionResults :=
  let moawin_tasks := moawin_get_task_completion_rate moTaskDb
  let rumi_lp := rumi_get_lesson_plan_metrics rumiLpDb
  [ ("ICT", lpRegionRec (bqLpLookup bqDb "ict")),
    ("Balochistan", lpRegionRec (bqLpLookup bqDb "balochistan")),
    ("RWP", lpRegionRec (bqLpLookup bqDb "rawalpindi")),
    ("Moawin",
      [ ("total_events", .vnum moawin_tasks.total_tasks),
        ("unique_teachers", .vnum 0),
        ("per_teacher", .vnum 0),
        ("type", .vstr "Task Completions"),
        ("status", .vstr "active") ]),
    ("Rumi",
      [ ("total_events", .vnum rumi_lp.total_plans),
        ("unique_teachers", .vnum rumi_lp.unique_teachers),
        ("per_teacher",
          .vnum (if rumi_lp.unique_teachers > 0 then
                   pyRound1 ((rumi_lp.total_plans : ℚ) /
                     (rumi_lp.unique_teachers : ℚ))
                 else 0)),
        ("type", .vstr "AI-Generated Plans"),
        ("status", .vstr "active") ]) ]

/-! ## Metric 3: `get_training_metrics` (`common_metrics.py` 267-321) -/

/-- A row of the BigQuery `unified_training_submissions` aggregation. -/
structure BqTrainRow where
  program : String
  total_submissions : Option ℤ
  unique_teachers : Option ℤ

/-- `bq_data.get(bq_key, {})` for the training query. -/
def bqTrainLookup (db : DbOutcome BqTrainRow) (key : String) :
    Option (ℤ × ℤ) :=
  match lastProgMatch (queryRows db) (·.program) key with
  | some r => some (orZero r.total_submissions, orZero r.unique_teachers)
  | none => none

/-- The per-region record built in the training loop. -/
def trainRegionRec (d : Option (ℤ × ℤ)) : Rec :=
  let total := (d.map Prod.fst).getD 0
  let teachers := (d.map Prod.snd).getD 0
  [ ("total_submissions", .vnum total),
    ("unique_teachers", .vnum teachers),
    ("per_teacher",
      .vnum (if teachers > 0 then pyRound1 ((total : ℚ) / (teachers : ℚ))
             else 0)),
    ("status", .vstr (if total > 0 then "active" else "no_data")) ]

/-- A row of the Moawin `teacher_training_progress` aggregate. -/
structure MoTrainRow where
  teachers_started : ℤ
  teachers_completed : ℤ
  avg_progress : Option ℚ

/-- Output shape of `moawin_queries.get_training_progress`. -/
structure TrainStats where
  teachers_started : ℤ
  teachers_completed : ℤ
  avg_progress : ℚ

/-- `moawin_queries.get_training_progress` (lines 243-266). -/
def moawin_get_training_progress (db : DbOutcome MoTrainRow) : TrainStats :=
  match queryRows db with
  | r :: _ =>
      ⟨r.teachers_started, r.teachers_completed,
        pyRound1 (orZeroQ r.avg_progress)⟩
  | [] => ⟨0, 0, 0⟩

/-- `get_training_metrics`: training engagement per region. -/
def get_training_metrics (bqDb : DbOutcome BqTrainRow)
    (moTrainDb : DbOutcome MoTrainRow) : RegionResults :=
  let moawin_training := moawin_get_training_progress moTrainDb
  [ ("ICT", trainRegionRec (bqTrainLookup bqDb "ict")),
    ("Balochistan", trainRegionRec (bqTrainLookup bqDb "balochistan")),
    ("RWP", trainRegionRec (bqTrainLookup bqDb "rawalpindi")),
    ("Moawin",
      [ ("total_submissions", .vnum moawin_training.teachers_started),
        ("unique_teachers", .vnum moawin_training.teachers_completed),
        ("per_teacher", .vnum 0),
        ("avg_progress", .vnum moawin_training.avg_progress),
        ("status", .vstr "active") ]),
    ("Rumi",
      [ ("total_submissions", .vnull),
        ("unique_teachers", .vnull),
        ("per_teacher", .vnull),
        ("status", .vstr "not_applicable") ]) ]

/-! ## Metric 4: `get_retention_metrics` (`common_metrics.py` 328-416) -/

/-- A row of the BigQuery `unified_events` retention aggregation. -/
structure BqRetRow where
  program : String
  active_7d : Option ℤ
  active_30d : Option ℤ
  total_users : Option ℤ

/-- `bq_data.get(bq_key, default_val.copy())` for the retention query:
`(active_7d, active_30d, total_users)` after `int(... or 0)`. -/
def bqRetLookup (db : DbOutcome BqRetRow) (key : String) :
    Option (ℤ × ℤ × ℤ) :=
  match lastProgMatch (queryRows db) (·.program) key with
  | some r =>
      some (orZero r.active_7d, orZero r.active_30d, orZero r.total_users)
  | none => none

/-- `round(a / total * 100, 1) if total > 0 else 0`. -/
def retentionRate (a total : ℤ) : ℚ :=
  if total > 0 then pyRound1 ((a : ℚ) / (total : ℚ) * 100) else 0

/-- The per-region record built in the retention loop (the `none` case
is `default_val` with `status` appended). -/
def retRegionRec (d : Option (ℤ × ℤ × ℤ)) : Rec :=
  match d with
  | some (a7, a30, total) =>
      [ ("active_7d", .vnum a7),
        ("active_30d", .vnum a30),
        ("total_users", .vnum total),
        ("retention_7d", .vnum (retentionRate a7 total)),
        ("retention_30d", .vnum (retentionRate a30 total)),
        ("status", .vstr "active") ]
  | none =>
      [ ("active_7d", .vnum 0),
        ("active_30d", .vnum 0),
        ("total_users", .vnum 0),
        ("retention_7d", .vnum 0),
        ("retention_30d", .vnum 0),
        ("status", .vstr "active") ]

/-- A row of the Moawin attendance retention query. -/
structure MoRetRow where
  active_7d : Option ℤ
  active_30d : Option ℤ
  total_schools : Option ℤ

/-- A row of the Rumi conversation-metrics query. -/
structure RumiConvRow where
  total_messages : Option ℤ
  avg_per_session : Option ℚ
  active_7d : Option ℤ
  active_30d : Option ℤ

/-- Output shape of `rumi_queries.get_conversation_metrics`. -/
structure ConvMetrics where
  total_messages : ℤ
  avg_per_session : ℚ
  active_users_7d : ℤ
  active_users_30d : ℤ

/-- `rumi_queries.get_conversation_metrics` (lines 180-208). -/
def rumi_get_conversation_metrics (db : DbOutcome RumiConvRow) :
    ConvMetrics :=
  match queryRows db with
  | r :: _ =>
      ⟨orZero r.total_messages, orZeroQ r.avg_per_session,
        orZero r.active_7d, orZero r.active_30d⟩
  | [] => ⟨40728, 8.1, 0, 0⟩

/-- The Moawin branch of `get_retention_metrics`: the live record when
the direct attendance query returns a row with a truthy
`total_schools`, else the static 236-school fallback record. -/
def moawin_retention_rec (db : DbOutcome MoRetRow) : Rec :=
  match queryRows db with
  | r :: _ =>
      if truthyInt r.total_schools then
        let total := orZero r.total_schools
        let a7 := orZero r.active_7d
        let a30 := orZero r.active_30d
        [ ("active_7d", .vnum a7),
          ("active_30d", .vnum a30),
          ("total_users", .vnum total),
          ("retention_7d", .vnum (retentionRate a7 total)),
          ("retention_30d", .vnum (retentionRate a30 total)),
          ("type", .vstr "School attendance"),
          ("status", .vstr "active") ]
      else
        [ ("active_7d", .vnum 0),
          ("active_30d", .vnum 0),
          ("total_users", .vnum 236),
          ("retention_7d", .vnum 0),
          ("retention_30d", .vnum 0),
          ("type", .vstr "School attendance"),
          ("status", .vstr "active") ]
  | [] =>
      [ ("active_7d", .vnum 0),
        ("active_30d", .vnum 0),
        ("total_users", .vnum 236),
        ("retention_7d", .vnum 0),
        ("retention_30d", .vnum 0),
        ("type", .vstr "School attendance"),
        ("status", .vstr "active") ]

/-- `get_retention_metrics`: retention per region. -/
def get_retention_metrics (bqDb : DbOutcome BqRetRow)
    (moRetDb : DbOutcome MoRetRow) (rumiConvDb : DbOutcome RumiConvRow) :
    RegionResults :=
  let conv := rumi_get_conversation_metrics rumiConvDb
  let total_users : ℤ := 1871
  [ ("ICT", retRegionRec (bqRetLookup bqDb "ict")),
    ("Balochistan", retRegionRec (bqRetLookup bqDb "balochistan")),
    ("RWP", retRegionRec (bqRetLookup bqDb "rawalpindi")),
    ("Moawin", moawin_retention_rec moRetDb),
    ("Rumi",
      [ ("active_7d", .vnum conv.active_users_7d),
        ("active_30d", .vnum conv.active_users_30d),
        ("total_users", .vnum total_users),
        ("retention_7d", .vnum (retentionRate conv.active_users_7d total_users)),
        ("retention_30d", .vnum (retentionRate conv.active_users_30d total_users)),
        ("type", .vstr "Chat sessions"),
        ("status", .vstr "active") ]) ]

/-! ## Metric 5: `get_fico_metrics` (`common_metrics.py` 423-470) -/

/-- Output shape of the adapters' `get_fico_scores`. -/
structure FicoScores where
  section_b : List (String × ℚ)
  section_c : List (String × ℚ)
  section_d : List (String × ℚ)

/-- `round(r.get(key, 0) or 0, 0)` for one TEACH indicator column. A
BigQuery row is embedded as a partial map from column alias to value. -/
def ficoCell (row : String → Option ℚ) (key : String) : ℚ :=
  pyRound0 (orZeroQ (row key))

/-- `islamabad_queries.get_fico_scores` (lines 98-177): TEACH indicator
averages mapped onto FICO sections, or the static sample on failure. -/
def isl_get_fico_scores (db : DbOutcome (String → Option ℚ)) : FicoScores :=
  match queryRows db with
  | r :: _ =>
      { section_b :=
          [ ("B1", ficoCell r "TOL1"), ("B2", ficoCell r "TOL2"),
            ("B3", ficoCell r "TOL3"), ("B4", ficoCell r "LF1"),
            ("B5", ficoCell r "LF2"), ("B6", ficoCell r "LF3") ],
        section_c :=
          [ ("C1", ficoCell r "CU1"), ("C2", ficoCell r "CU2"),
            ("C3", ficoCell r "CU3"), ("C4", ficoCell r "FB1"),
            ("C5", ficoCell r "FB2"), ("C6", ficoCell r "FB3") ],
        section_d :=
          [ ("D1", ficoCell r "CT1"), ("D2", ficoCell r "CT2"),
            ("D3", ficoCell r "CT3"), ("D4", ficoCell r "SE1"),
            ("D5", ficoCell r "SE2"), ("D6", ficoCell r "SE3") ] }
  | [] =>
      { section_b :=
          [("B1", 78), ("B2", 72), ("B3", 68), ("B4", 75), ("B5", 71),
           ("B6", 65)],
        section_c :=
          [("C1", 70), ("C2", 65), ("C3", 58), ("C4", 72), ("C5", 68),
           ("C6", 62)],
        section_d :=
          [("D1", 55), ("D2", 48), ("D3", 42), ("D4", 68), ("D5", 62),
           ("D6", 58)] }

/-- `balochistan_queries.get_fico_scores` (lines 196-234): the live SQL
is built but never executed in the source; the function always returns
the `BALOCHISTAN_KNOWN_VALUES` section dictionaries. -/
def bal_get_fico_scores : FicoScores :=
  { section_b :=
      [("B1", 84), ("B2", 80), ("B3", 82), ("B4", 88), ("B5", 88),
       ("B6", 42), ("B7", 62), ("B8", 41), ("B9", 48), ("B10", 84),
       ("B11", 63), ("B12", 90), ("B13", 90)],
    section_c :=
      [("C1", 82), ("C2", 78), ("C3", 44), ("C4", 68), ("C5", 68),
       ("C6", 85), ("C7", 86), ("C8", 84), ("C9", 84), ("C10", 90),
       ("C11", 44)],
    section_d :=
      [("D1", 44), ("D2", 44), ("D3", 6), ("D4", 16), ("D5", 11),
       ("D6", 0)] }

/-- `round(sum(vals) / len(vals), 1) if vals else 0` over the truthy
(nonzero) section values. -/
def ficoAvg (vals : List ℚ) : ℚ :=
  if vals.isEmpty then 0 else pyRound1 (vals.sum / (vals.length : ℚ))

/-- The active-region FICO record shared by the ICT and Balochistan
branches of `get_fico_metrics` (identical dict shape in the source, up
to the `type` label). -/
def ficoRegionRec (f : FicoScores) (ty : String) : Rec :=
  if f.section_b.isEmpty then [("status", .vstr "no_data")]
  else
    let b_vals := (f.section_b.map Prod.snd).filter (fun v => v ≠ 0)
    let c_vals := (f.section_c.map Prod.snd).filter (fun v => v ≠ 0)
    let d_vals := (f.section_d.map Prod.snd).filter (fun v => v ≠ 0)
    [ ("section_b", .vdictQ f.section_b),
      ("section_c", .vdictQ f.section_c),
      ("section_d", .vdictQ f.section_d),
      ("b_avg", .vnum (ficoAvg b_vals)),
      ("c_avg", .vnum (ficoAvg c_vals)),
      ("d_avg", .vnum (ficoAvg d_vals)),
      ("type", .vstr ty),
      ("status", .vstr "active") ]

/-- `get_fico_metrics`: FICO section scores per region. -/
def get_fico_metrics (ictDb : DbOutcome (String → Option ℚ)) :
    RegionResults :=
  [ ("ICT", ficoRegionRec (isl_get_fico_scores ictDb) "TEACH Tool (Human)"),
    ("Balochistan", ficoRegionRec bal_get_fico_scores "AI (Rumi) + Human"),
    ("RWP", [("status", .vstr "no_data")]),
    ("Moawin", [("status", .vstr "not_applicable")]),
    ("Rumi", [("status", .vstr "not_applicable")]) ]

/-! ## Metric 6: `get_student_learning_metrics` (`common_metrics.py` 477-521) -/

/-- A row of the Moawin `student_scores` query before normalization. -/
structure SubjectRowIn where
  subject : Option String
  avg_score : Option ℚ
  pass_rate : Option ℚ
  count : ℤ

/-- `moawin_queries.get_student_scores_by_subject` (lines 145-181):
normalized `(subject, avg_score, pass_rate, count)` tuples, or the
static sample on failure. -/
def moawin_get_student_scores_by_subject (db : DbOutcome SubjectRowIn) :
    List (String × ℚ × ℚ × ℤ) :=
  match queryRows db with
  | [] =>
      [ ("English", 68.5, 72.3, 2450), ("Math", 65.2, 68.1, 2380),
        ("Urdu", 71.8, 78.5, 2410), ("Science", 62.4, 64.2, 1820) ]
  | rows =>
      rows.map (fun r =>
        (r.subject.getD "Unknown", orZeroQ r.avg_score, orZeroQ r.pass_rate,
          r.count))

/-- `get_student_learning_metrics`: student learning per region. -/
def get_student_learning_metrics (moDb : DbOutcome SubjectRowIn) :
    RegionResults :=
  let scores := moawin_get_student_scores_by_subject moDb
  [ ("ICT",
      [ ("type", .vstr "RCT Effect Size"),
        ("effect_size", .vnum 0.46),
        ("description",
          .vstr "0.46 SD improvement (Cohen's d) from teacher certification"),
        ("status", .vstr "active") ]),
    ("Balochistan", [("status", .vstr "no_data")]),
    ("RWP", [("status", .vstr "no_data")]),
    ("Moawin",
      if scores.isEmpty then [("status", .vstr "no_data")]
      else
        [ ("type", .vstr "Assessment Scores"),
          ("subjects", .vsubj scores),
          ("avg_score",
            .vnum (pyRound1 ((scores.map (fun s => s.2.1)).sum /
              (scores.length : ℚ)))),
          ("avg_pass_rate",
            .vnum (pyRound1 ((scores.map (fun s => s.2.2.1)).sum /
              (scores.length : ℚ)))),
          ("total_assessments", .vnum ((scores.map (fun s => s.2.2.2)).sum)),
          ("status", .vstr "active") ]),
    ("Rumi",
      [ ("type", .vstr "WCPM Reading Assessment"),
        ("total_assessments", .vnum 197),
        ("description",
          .vstr "197 Words Correct Per Minute reading assessments"),
        ("status", .vstr "active") ]) ]

/-! ## Adapter summary metrics (`islamabad_queries.py`) -/

/-- The common shape of the adapters' `get_summary_metrics` dictionaries
consumed by the router. -/
structure SummaryMetrics where
  schools : ℤ
  teachers : ℤ
  ai_sessions : ℤ
  human_observations : ℤ
  avg_score : ℚ
  students : ℤ
deriving DecidableEq, Repr

/-- A row of the Islamabad TEACH summary query. -/
structure IslSummaryRow where
  schools : ℤ
  observations : ℤ
  avg_score : Option ℚ

/-- `islamabad_queries.get_teacher_count` (lines 23-32). -/
def isl_get_teacher_count (db : DbOutcome ℤ) : ℤ :=
  match queryRows db with
  | c :: _ => c
  | [] => 9981

/-- `islamabad_queries.get_summary_metrics` (lines 47-95): live branch
when the query returns a row with a truthy observation count, otherwise
the `ISLAMABAD_KNOWN_VALUES` fallback (52 schools, 9981 teachers, 2423
human observations, avg score 74.2, 4100 students). The live branch's
`int(..) or KNOWN` keeps a zero school count out of the result. -/
def isl_get_summary_metrics (db : DbOutcome IslSummaryRow)
    (teacherDb : DbOutcome ℤ) (_time_period : String) : SummaryMetrics :=
  match queryRows db with
  | r :: _ =>
      if r.observations ≠ 0 then
        { schools := if r.schools = 0 then 52 else r.schools,
          teachers := isl_get_teacher_count teacherDb,
          ai_sessions := 0,
          human_observations := r.observations,
          avg_score := pyRound1 (orZeroQ r.avg_score),
          students := 4100 }
      else
        ⟨52, 9981, 0, 2423, 74.2, 4100⟩
  | [] => ⟨52, 9981, 0, 2423, 74.2, 4100⟩

/-! ## Metric router (`queries.py`) -/

/-- The router's view of the three adapters it dispatches to: each entry
is the adapter's operation as a function of the sub-filter that the
router passes through. -/
structure AdapterEnv where
  balSummary : String → SummaryMetrics
  mowSummary : String → SummaryMetrics
  islSummary : String → SummaryMetrics
  balObs : String → ObsCounts
  mowObs : String → ObsCounts
  islObs : String → ObsCounts

/-- The adapters' summary dictionary rendered in router key order. -/
def toSummaryRec (m : SummaryMetrics) : Rec :=
  [ ("schools", .vnum m.schools),
    ("teachers", .vnum m.teachers),
    ("ai_sessions", .vnum m.ai_sessions),
    ("human_observations", .vnum m.human_observations),
    ("avg_score", .vnum m.avg_score),
    ("students", .vnum m.students) ]

/-- `pat` is a prefix of `s` (on character lists). -/
def startsWithB : List Char → List Char → Bool
  | [], _ => true
  | _ :: _, [] => false
  | a :: pa, b :: sb => a == b && startsWithB pa sb

/-- `pat` occurs as a contiguous substring of `s`. -/
def hasInfixB : List Char → List Char → Bool
  | pat, [] => startsWithB pat []
  | pat, b :: rest => startsWithB pat (b :: rest) || hasInfixB pat rest

/-- Python `"Coming Soon" in str(region)`. -/
def containsComingSoon (region : String) : Bool :=
  hasInfixB "Coming Soon".data region.data

/-- `queries.get_summary_metrics` (lines 17-67): string dispatch on the
region filter. The `"Combined"` branch sums the Balochistan, Moawin and
Islamabad adapters' dictionaries field by field and divides the score
sum by the literal 3; no other adapter is consulted and no
status/availability information exists at this layer. -/
def router_get_summary_metrics (env : AdapterEnv) (region : String)
    (time_period obs_type : String) : Rec :=
  if region = "Balochistan" then toSummaryRec (env.balSummary obs_type)
  else if region = "Moawin" then toSummaryRec (env.mowSummary time_period)
  else if region = "Islamabad" then toSummaryRec (env.islSummary time_period)
  else if region = "Rawalpindi" ∨ containsComingSoon region then
    [ ("schools", .vnum 0), ("teachers", .vnum 0), ("ai_sessions", .vnum 0),
      ("human_observations", .vnum 0), ("avg_score", .vnum 0),
      ("students", .vnum 0), ("note", .vstr "Rawalpindi data coming soon") ]
  else if region = "Combined" then
    let bal := env.balSummary obs_type
    let mow := env.mowSummary time_period
    let isl := env.islSummary time_period
    toSummaryRec
      { schools := bal.schools + mow.schools + isl.schools,
        teachers := bal.teachers + mow.teachers + isl.teachers,
        ai_sessions := bal.ai_sessions,
        human_observations := bal.human_observations + isl.human_observations,
        avg_score :=
          pyRound1 ((bal.avg_score + mow.avg_score + isl.avg_score) / 3),
        students := bal.students + mow.students + isl.students }
  else []

/-- `queries.get_observation_counts` (lines 169-198): the `"Combined"`
branch adds only the Balochistan and Islamabad adapters' counts. -/
def router_get_observation_counts (env : AdapterEnv) (region : String)
    (obs_type : String) : ObsCounts :=
  if region = "Balochistan" then env.balObs obs_type
  else if region = "Moawin" then env.mowObs obs_type
  else if region = "Islamabad" then env.islObs obs_type
  else if region = "Combined" then
    let bal := env.balObs obs_type
    let isl := env.islObs obs_type
    ⟨bal.ai_count + isl.ai_count, bal.human_count + isl.human_count,
      bal.total + isl.total⟩
  else ⟨0, 0, 0⟩

/-! ## Cache/freshness layer (`cache_layer.py`) -/

/-- The process-wide mutable state the cache layer touches: the
`st.cache_data` memoization table (abstracted to its entry list) and the
`st.session_state["last_refresh"]` slot (absent before first use).
Timestamps are abstract clock readings. -/
structure CacheState where
  entries : List (String × JVal)
  last_refresh : Option ℕ
deriving DecidableEq, Repr

/-- `cache_layer.get_last_refresh_time` (lines 15-19): lazily seeds the
`last_refresh` slot with the current time on first read and returns the
stored timestamp (the source formats it with `strftime`; the pure
formatting step is dropped, the returned value is the timestamp that is
formatted). Total: it cannot fail on any state. -/
def get_last_refresh_time (now : ℕ) (s : CacheState) : ℕ × CacheState :=
  match s.last_refresh with
  | some t => (t, s)
  | none => (now, { s with last_refresh := some now })

/-- `cache_layer.clear_all_caches` (lines 22-25): `st.cache_data.clear()`
drops every memoized entry; the freshness slot is set to the current
time. -/
def clear_all_caches (now : ℕ) (_s : CacheState) : CacheState :=
  { entries := [], last_refresh := some now }

/-! ## Offline refresh script (`scripts/refresh_cache.py`) -/

/-- One run of `refresh_cache.main`: whether each of the four per-source
refresh tasks completed without raising (`main` catches these and counts
them in `failures`), and whether writing the two snapshot files raised
(`main` does not catch this). -/
structure RefreshRun where
  taskOk : List Bool
  saveOk : Bool

/-- The `failures` counter of `main`. -/
def refresh_failures (run : RefreshRun) : ℕ :=
  (run.taskOk.filter (fun b => !b)).length

/-- The process exit status of `python scripts/refresh_cache.py`:
`sys.exit(main())` returns `main`'s value when `main` returns, and a
`main` that raises (the uncaught snapshot-write path) terminates CPython
with exit status 1. No branch of `main` returns 2. -/
def refresh_main_exit (run : RefreshRun) : ℕ :=
  if run.saveOk then
    if refresh_failures run > 0 then 1 else 0
  else 1

/-! ## Spec predicates over Metric Records -/

/-- A key holds a value field in the sense of §3 of the spec: everything
except the `status` tag and the optional `type` label. -/
def isValueKey (k : String) : Bool := !(k == "status" || k == "type")

/-- First half of the §3 invariant as the spec states it: a record whose
`status` is not `active` has every value field null. -/
def recNonActiveAllNullB (r : Rec) : Bool :=
  if findField r "status" = some (.vstr "active") then true
  else r.all (fun p => !isValueKey p.1 || p.2.isNull)

/-- Second half of the §3 invariant: a record whose `status` is `active`
has at least one non-null value field. -/
def recActiveHasValueB (r : Rec) : Bool :=
  if findField r "status" = some (.vstr "active") then
    r.any (fun p => isValueKey p.1 && !p.2.isNull)
  else true

/-- The §3 status/value consistency invariant, exactly as claimed. -/
def recStatusConsistentB (r : Rec) : Bool :=
  recNonActiveAllNullB r && recActiveHasValueB r

/-- Every record of a per-region result satisfies `p`. -/
def allRecords (rs : RegionResults) (p : Rec → Bool) : Bool :=
  rs.all (fun q => p q.2)

/-- The four status values enumerated by the spec. -/
def CLAIM_STATUSES : List String :=
  ["active", "no_data", "not_applicable", "launching"]

/-- The four status values the code actually emits. -/
def CODE_STATUSES : List String :=
  ["active", "no_data", "not_applicable", "launching_q2_2026"]

/-- The record carries a `status` string drawn from `valid`. -/
def recStatusInB (valid : List String) (r : Rec) : Bool :=
  match findField r "status" with
  | some (.vstr s) => valid.contains s
  | _ => false

/-- Division guard on per-teacher rates: a record whose stored teacher
count is zero reports a zero per-teacher rate. -/
def lpDivGuardB (r : Rec) : Bool :=
  if findField r "unique_teachers" = some (.vnum 0) then
    decide (findField r "per_teacher" = some (.vnum 0))
  else true

/-- Division guard on retention rates: a record whose stored user total
is zero reports zero 7-day and 30-day retention. -/
def retDivGuardB (r : Rec) : Bool :=
  if findField r "total_users" = some (.vnum 0) then
    decide (findField r "retention_7d" = some (.vnum 0)) &&
      decide (findField r "retention_30d" = some (.vnum 0))
  else true

/-- Concrete Balochistan summary for the Combined-mode scenario: an
available adapter reporting `avg_score = 10`. -/
def c2Bal : SummaryMetrics := ⟨95, 34, 522, 54, 10, 6598⟩

/-- Concrete Moawin summary for the Combined-mode scenario: an available
adapter reporting `avg_score = 20`. -/
def c2Mow : SummaryMetrics := ⟨236, 602, 0, 0, 20, 18758⟩

/-- Concrete Islamabad summary for the Combined-mode scenario: an
adapter with no score data, which the summary shape can only express as
`avg_score = 0` (the dictionaries carry no status field). -/
def c2Isl : SummaryMetrics := ⟨52, 9981, 0, 2423, 0, 4100⟩

/-- Adapter environment realizing the spec's {10, 20, N/A} Combined-mode
scenario on the code's summary shape. -/
def c2Env : AdapterEnv :=
  { balSummary := fun _ => c2Bal, mowSummary := fun _ => c2Mow,
    islSummary := fun _ => c2Isl,
    balObs := fun _ => ⟨522, 54, 576⟩, mowObs := fun _ => ⟨0, 0, 0⟩,
    islObs := fun _ => ⟨0, 2423, 2423⟩ }

/-! ## Record-level lemmas -/

lemma statusIn_lpRegionRec (d : Option (ℤ × ℤ)) :
    recStatusInB CODE_STATUSES (lpRegionRec d) = true := by
  rcases d with _ | ⟨total, teachers⟩
  · decide
  · by_cases c : total > 0 <;>
      simp [lpRegionRec, recStatusInB, findField, c] <;> decide

lemma statusIn_trainRegionRec (d : Option (ℤ × ℤ)) :
    recStatusInB CODE_STATUSES (trainRegionRec d) = true := by
  rcases d with _ | ⟨total, teachers⟩
  · decide
  · by_cases c : total > 0 <;>
      simp [trainRegionRec, recStatusInB, findField, c] <;> decide

lemma statusIn_retRegionRec (d : Option (ℤ × ℤ × ℤ)) :
    recStatusInB CODE_STATUSES (retRegionRec d) = true := by
  rcases d with _ | ⟨a7, a30, t⟩
  · decide
  · rfl

lemma statusIn_moawinRetentionRec (db : DbOutcome MoRetRow) :
    recStatusInB CODE_STATUSES (moawin_retention_rec db) = true := by
  cases h : queryRows db with
  | nil => simp [moawin_retention_rec, h]; decide
  | cons r rest =>
      rcases r with ⟨a7, a30, ts⟩
      rcases ts with _ | n
      · simp [moawin_retention_rec, h, truthyInt]; decide
      · by_cases c : n = 0 <;>
          simp [moawin_retention_rec, h, truthyInt, c, recStatusInB,
            findField] <;> decide

lemma statusIn_ficoRegionRec (f : FicoScores) (ty : String) :
    recStatusInB CODE_STATUSES (ficoRegionRec f ty) = true := by
  by_cases e : f.section_b.isEmpty <;>
    simp [ficoRegionRec, recStatusInB, findField, e] <;> decide

lemma activeVal_lpRegionRec (d : Option (ℤ × ℤ)) :
    recActiveHasValueB (lpRegionRec d) = true := by
  rcases d with _ | ⟨total, teachers⟩
  · decide
  · by_cases c : total > 0 <;>
      simp [lpRegionRec, recActiveHasValueB, findField, isValueKey,
        JVal.isNull, c] <;> decide

lemma activeVal_trainRegionRec (d : Option (ℤ × ℤ)) :
    recActiveHasValueB (trainRegionRec d) = true := by
  rcases d with _ | ⟨total, teachers⟩
  · decide
  · by_cases c : total > 0 <;>
      simp [trainRegionRec, recActiveHasValueB, findField, isValueKey,
        JVal.isNull, c] <;> decide

lemma activeVal_retRegionRec (d : Option (ℤ × ℤ × ℤ)) :
    recActiveHasValueB (retRegionRec d) = true := by
  rcases d with _ | ⟨a7, a30, t⟩
  · decide
  · rfl

lemma activeVal_moawinRetentionRec (db : DbOutcome MoRetRow) :
    recActiveHasValueB (moawin_retention_rec db) = true := by
  cases h : queryRows db with
  | nil => simp [moawin_retention_rec, h]; decide
  | cons r rest =>
      rcases r with ⟨a7, a30, ts⟩
      rcases ts with _ | n
      · simp [moawin_retention_rec, h, truthyInt]; decide
      · by_cases c : n = 0 <;>
          simp [moawin_retention_rec, h, truthyInt, c, recActiveHasValueB,
            findField, isValueKey, JVal.isNull] <;> decide

lemma activeVal_ficoRegionRec (f : FicoScores) (ty : String) :
    recActiveHasValueB (ficoRegionRec f ty) = true := by
  by_cases e : f.section_b.isEmpty <;>
    simp [ficoRegionRec, recActiveHasValueB, findField, isValueKey,
      JVal.isNull, e] <;> decide

lemma lpGuard_lpRegionRec (d : Option (ℤ × ℤ)) :
    lpDivGuardB (lpRegionRec d) = true := by
  rcases d with _ | ⟨total, teachers⟩
  · decide
  · by_cases c : teachers = 0 <;>
      simp [lpRegionRec, lpDivGuardB, findField, c] <;> decide

lemma lpGuard_trainRegionRec (d : Option (ℤ × ℤ)) :
    lpDivGuardB (trainRegionRec d) = true := by
  rcases d with _ | ⟨total, teachers⟩
  · decide
  · by_cases c : teachers = 0 <;>
      simp [trainRegionRec, lpDivGuardB, findField, c] <;> decide

lemma retGuard_retRegionRec (d : Option (ℤ × ℤ × ℤ)) :
    retDivGuardB (retRegionRec d) = true := by
  rcases d with _ | ⟨a7, a30, t⟩
  · decide
  · by_cases c : t = 0 <;>
      simp [retRegionRec, retDivGuardB, retentionRate, findField, c] <;> decide

lemma retGuard_moawinRetentionRec (db : DbOutcome MoRetRow) :
    retDivGuardB (moawin_retention_rec db) = true := by
  cases h : queryRows db with
  | nil => simp [moawin_retention_rec, h]; decide
  | cons r rest =>
      rcases r with ⟨a7, a30, ts⟩
      rcases ts with _ | n
      · simp [moawin_retention_rec, h, truthyInt]; decide
      · by_cases c : n = 0 <;>
          simp [moawin_retention_rec, h, truthyInt, c, retDivGuardB,
            retentionRate, findField, orZero] <;> decide

lemma bal_total_eq (db : DbOutcome BalObsRow) (ot : String) :
    (bal_get_observation_counts db ot).total =
      (bal_get_observation_counts db ot).ai_count +
        (bal_get_observation_counts db ot).human_count := by
  rcases db with _ | _ | (_ | ⟨r, rest⟩) <;>
    by_cases s1 : ot = "AI Only (Rumi)" <;>
    by_cases s2 : ot = "Human Only (Coaches)" <;>
    simp [bal_get_observation_counts, s1, s2]

lemma isl_total_eq (db : DbOutcome ℤ) (ot : String) :
    (isl_get_observation_counts db ot).total =
      (isl_get_observation_counts db ot).ai_count +
        (isl_get_observation_counts db ot).human_count := by
  by_cases s1 : ot = "AI Only (Rumi)" <;>
    by_cases s2 : ot = "Human Only (Coaches)" <;>
    simp [isl_get_observation_counts, s1, s2]

lemma rumi_total_eq (db : DbOutcome RumiObsRow) (ot : String) :
    (rumi_get_observation_counts db ot).total =
      (rumi_get_observation_counts db ot).ai_count +
        (rumi_get_observation_counts db ot).human_count := by
  rcases db with _ | _ | (_ | ⟨r, rest⟩) <;>
    by_cases s1 : ot = "Human Only (Coaches)" <;>
    simp [rumi_get_observation_counts, queryRows, s1]

/-! ## Claim theorems -/

/-- Claim C1, counterexample: the §3 status/value invariant fails on the
code. The RWP record of `get_observation_metrics` (here with every
upstream unreachable, though the record is upstream-independent) has a
non-`active` status (`launching_q2_2026`) while carrying the non-null
value fields `actual = 0` and `benchmark_monthly = 2376`. -/
theorem observability_C1_counterexample :
    recStatusConsistentB
      (findRegion (get_observation_metrics .unreachable .unreachable .unreachable)
        "RWP") = false ∧
    findField (findRegion
        (get_observation_metrics .unreachable .unreachable .unreachable) "RWP")
      "status" = some (.vstr "launching_q2_2026") ∧
    findField (findRegion
        (get_observation_metrics .unreachable .unreachable .unreachable) "RWP")
      "actual" = some (.vnum 0) ∧
    findField (findRegion
        (get_observation_metrics .unreachable .unreachable .unreachable) "RWP")
      "benchmark_monthly" = some (.vnum 2376) := by decide

/-- Claim C1, amended: across all six metric operations in
`common_metrics` and all upstream outcomes, every record whose `status`
is `active` carries at least one non-null value field. (The converse
half of the claimed invariant — non-`active` status implies all value
fields null — is false; see the counterexample.) -/
theorem observability_C1_amended (dbIsl : DbOutcome ℤ)
    (dbBal : DbOutcome BalObsRow) (dbRumi : DbOutcome RumiObsRow)
    (lpBq : DbOutcome BqLpRow) (moTask : DbOutcome MoTaskRow)
    (rumiLp : DbOutcome RumiLpRow) (trBq : DbOutcome BqTrainRow)
    (moTrain : DbOutcome MoTrainRow) (retBq : DbOutcome BqRetRow)
    (moRet : DbOutcome MoRetRow) (rumiConv : DbOutcome RumiConvRow)
    (ictFico : DbOutcome (String → Option ℚ)) (moScores : DbOutcome SubjectRowIn) :
    allRecords (get_observation_metrics dbIsl dbBal dbRumi)
      recActiveHasValueB = true ∧
    allRecords (get_lp_engagement_metrics lpBq moTask rumiLp)
      recActiveHasValueB = true ∧
    allRecords (get_training_metrics trBq moTrain) recActiveHasValueB = true ∧
    allRecords (get_retention_metrics retBq moRet rumiConv)
      recActiveHasValueB = true ∧
    allRecords (get_fico_metrics ictFico) recActiveHasValueB = true ∧
    allRecords (get_student_learning_metrics moScores)
      recActiveHasValueB = true := by
  refine ⟨rfl, ?_, ?_, ?_, ?_, ?_⟩
  · simp only [allRecords, get_lp_engagement_metrics, List.all_cons, List.all_nil,
      Bool.and_eq_true, Bool.and_true]
    exact ⟨activeVal_lpRegionRec _, activeVal_lpRegionRec _,
      activeVal_lpRegionRec _, rfl, rfl⟩
  · simp only [allRecords, get_training_metrics, List.all_cons, List.all_nil,
      Bool.and_eq_true, Bool.and_true]
    exact ⟨activeVal_trainRegionRec _, activeVal_trainRegionRec _,
      activeVal_trainRegionRec _, rfl, rfl⟩
  · simp only [allRecords, get_retention_metrics, List.all_cons, List.all_nil,
      Bool.and_eq_true, Bool.and_true]
    exact ⟨activeVal_retRegionRec _, activeVal_retRegionRec _,
      activeVal_retRegionRec _, activeVal_moawinRetentionRec _, rfl⟩
  · simp only [allRecords, get_fico_metrics, List.all_cons, List.all_nil,
      Bool.and_eq_true, Bool.and_true]
    exact ⟨activeVal_ficoRegionRec _ _, activeVal_ficoRegionRec _ _, rfl, rfl, rfl⟩
  · simp only [allRecords, get_student_learning_metrics, List.all_cons,
      List.all_nil, Bool.and_eq_true, Bool.and_true]
    refine ⟨rfl, rfl, rfl, ?_, rfl⟩
    by_cases e : (moawin_get_student_scores_by_subject moScores).isEmpty <;>
      simp [recActiveHasValueB, findField, isValueKey, JVal.isNull, e] <;> decide

/-- Claim C2, counterexample: for the Combined region with adapter
scores {10, 20, unavailable-as-0}, the router's merged `avg_score` is
10, not the claimed 15 — the Combined branch has no status filtering and
divides by the literal 3. -/
theorem observability_C2_counterexample :
    findField (router_get_summary_metrics c2Env "Combined" "All Time"
      "All Observations") "avg_score" = some (.vnum 10) ∧
    (10 : ℚ) ≠ 15 := by
  constructor
  · simp [router_get_summary_metrics, c2Env, c2Bal, c2Mow, c2Isl, toSummaryRec,
      findField, containsComingSoon]
    norm_num [pyRound1, round_eq]
  · norm_num

/-- Claim C2, amended: for the `"Combined"` region the router consults
exactly the Balochistan, Moawin and Islamabad adapters and merges with
no status filtering: `schools`, `teachers` and `students` are summed
over all three, `human_observations` over Balochistan and Islamabad,
`ai_sessions` is Balochistan's alone, and `avg_score` is the
round-to-one-decimal of the three-way mean with the fixed divisor 3, so
an unavailable adapter's zero is counted; observation counts in Combined
mode add the Balochistan and Islamabad adapters componentwise. In the
{10, 20, 0} scenario the merged mean is therefore 10. -/
theorem observability_C2_amended (env : AdapterEnv) (tp ot : String) :
    router_get_summary_metrics env "Combined" tp ot =
      toSummaryRec
        { schools := (env.balSummary ot).schools + (env.mowSummary tp).schools +
            (env.islSummary tp).schools,
          teachers := (env.balSummary ot).teachers + (env.mowSummary tp).teachers +
            (env.islSummary tp).teachers,
          ai_sessions := (env.balSummary ot).ai_sessions,
          human_observations := (env.balSummary ot).human_observations +
            (env.islSummary tp).human_observations,
          avg_score := pyRound1 (((env.balSummary ot).avg_score +
            (env.mowSummary tp).avg_score + (env.islSummary tp).avg_score) / 3),
          students := (env.balSummary ot).students + (env.mowSummary tp).students +
            (env.islSummary tp).students } ∧
    router_get_observation_counts env "Combined" ot =
      ⟨(env.balObs ot).ai_count + (env.islObs ot).ai_count,
        (env.balObs ot).human_count + (env.islObs ot).human_count,
        (env.balObs ot).total + (env.islObs ot).total⟩ ∧
    findField (router_get_summary_metrics c2Env "Combined" "All Time"
      "All Observations") "avg_score" = some (.vnum 10) := by
  refine ⟨?_, ?_, ?_⟩
  · have hcs : containsComingSoon "Combined" = false := by decide
    simp [router_get_summary_metrics, toSummaryRec, hcs]
  · simp [router_get_observation_counts]
  · simp [router_get_summary_metrics, c2Env, c2Bal, c2Mow, c2Isl, toSummaryRec,
      findField, containsComingSoon]
    norm_num [pyRound1, round_eq]

/-- Claim C3: on every modelled failure mode — upstream unreachable, a
query that raises (caught), or an empty result set — the adapter
operations return their statically-known fallbacks without propagating
the failure: Balochistan observation counts 522 AI + 54 human = 576,
the Islamabad summary (52 schools, 9981 teachers, 2423 observations,
avg 74.2, 4100 students), and the Rumi lesson-plan fallback (1815 plans,
0 teachers). Each embedded adapter is a total function of the upstream
outcome, which is the shallow form of "never raises to the caller"; the
log side-channel is an effect outside the embedding. -/
theorem observability_C3_fallback_on_failure :
    (bal_get_observation_counts .unreachable "All Observations" = ⟨522, 54, 576⟩) ∧
    (bal_get_observation_counts .queryError "All Observations" = ⟨522, 54, 576⟩) ∧
    (bal_get_observation_counts (.ok []) "All Observations" = ⟨522, 54, 576⟩) ∧
    (∀ (tdb : DbOutcome ℤ) (tp : String),
      isl_get_summary_metrics .unreachable tdb tp = ⟨52, 9981, 0, 2423, 74.2, 4100⟩) ∧
    (∀ (tdb : DbOutcome ℤ) (tp : String),
      isl_get_summary_metrics .queryError tdb tp = ⟨52, 9981, 0, 2423, 74.2, 4100⟩) ∧
    (∀ (tdb : DbOutcome ℤ) (tp : String),
      isl_get_summary_metrics (.ok []) tdb tp = ⟨52, 9981, 0, 2423, 74.2, 4100⟩) ∧
    (rumi_get_lesson_plan_metrics .unreachable = ⟨1815, 0⟩) ∧
    (rumi_get_lesson_plan_metrics .queryError = ⟨1815, 0⟩) ∧
    (rumi_get_lesson_plan_metrics (.ok []) = ⟨1815, 0⟩) :=
  ⟨by decide, by decide, by decide, fun _ _ => rfl, fun _ _ => rfl,
    fun _ _ => rfl, rfl, rfl, rfl⟩

/-- Claim C4, counterexample: the status enumeration of the claim is not
what the code emits. The RWP observation record's status is the literal
`launching_q2_2026`, which is not among
`active | no_data | not_applicable | launching`. -/
theorem observability_C4_counterexample :
    recStatusInB CLAIM_STATUSES
      (findRegion (get_observation_metrics .unreachable .unreachable .unreachable)
        "RWP") = false ∧
    findField (findRegion
        (get_observation_metrics .unreachable .unreachable .unreachable) "RWP")
      "status" = some (.vstr "launching_q2_2026") ∧
    ¬ ("launching_q2_2026" ∈ CLAIM_STATUSES) := by decide

/-- Claim C4, amended: for every upstream outcome, every record of the
six metric operations carries a `status` drawn from exactly
`active | no_data | not_applicable | launching_q2_2026`; the not-yet-
launched region (RWP observations) reports `launching_q2_2026`, a value
distinct from `no_data`. -/
theorem observability_C4_amended (dbIsl : DbOutcome ℤ)
    (dbBal : DbOutcome BalObsRow) (dbRumi : DbOutcome RumiObsRow)
    (lpBq : DbOutcome BqLpRow) (moTask : DbOutcome MoTaskRow)
    (rumiLp : DbOutcome RumiLpRow) (trBq : DbOutcome BqTrainRow)
    (moTrain : DbOutcome MoTrainRow) (retBq : DbOutcome BqRetRow)
    (moRet : DbOutcome MoRetRow) (rumiConv : DbOutcome RumiConvRow)
    (ictFico : DbOutcome (String → Option ℚ)) (moScores : DbOutcome SubjectRowIn) :
    allRecords (get_observation_metrics dbIsl dbBal dbRumi)
      (recStatusInB CODE_STATUSES) = true ∧
    allRecords (get_lp_engagement_metrics lpBq moTask rumiLp)
      (recStatusInB CODE_STATUSES) = true ∧
    allRecords (get_training_metrics trBq moTrain)
      (recStatusInB CODE_STATUSES) = true ∧
    allRecords (get_retention_metrics retBq moRet rumiConv)
      (recStatusInB CODE_STATUSES) = true ∧
    allRecords (get_fico_metrics ictFico) (recStatusInB CODE_STATUSES) = true ∧
    allRecords (get_student_learning_metrics moScores)
      (recStatusInB CODE_STATUSES) = true := by
  refine ⟨rfl, ?_, ?_, ?_, ?_, ?_⟩
  · simp only [allRecords, get_lp_engagement_metrics, List.all_cons, List.all_nil,
      Bool.and_eq_true, Bool.and_true]
    exact ⟨statusIn_lpRegionRec _, statusIn_lpRegionRec _,
      statusIn_lpRegionRec _, rfl, rfl⟩
  · simp only [allRecords, get_training_metrics, List.all_cons, List.all_nil,
      Bool.and_eq_true, Bool.and_true]
    exact ⟨statusIn_trainRegionRec _, statusIn_trainRegionRec _,
      statusIn_trainRegionRec _, rfl, rfl⟩
  · simp only [allRecords, get_retention_metrics, List.all_cons, List.all_nil,
      Bool.and_eq_true, Bool.and_true]
    exact ⟨statusIn_retRegionRec _, statusIn_retRegionRec _,
      statusIn_retRegionRec _, statusIn_moawinRetentionRec _, rfl⟩
  · simp only [allRecords, get_fico_metrics, List.all_cons, List.all_nil,
      Bool.and_eq_true, Bool.and_true]
    exact ⟨statusIn_ficoRegionRec _ _, statusIn_ficoRegionRec _ _, rfl, rfl, rfl⟩
  · simp only [allRecords, get_student_learning_metrics, List.all_cons,
      List.all_nil, Bool.and_eq_true, Bool.and_true]
    refine ⟨rfl, rfl, rfl, ?_, rfl⟩
    by_cases e : (moawin_get_student_scores_by_subject moScores).isEmpty <;>
      simp [recStatusInB, findField, e] <;> decide

/-- Claim C5: for every upstream outcome, in every record of the LP
engagement, training and retention operations, a zero stored divisor
(`unique_teachers = 0`, resp. `total_users = 0`) yields a derived rate
of exactly 0 — the embedded functions are total, so no exception or NaN
arises. -/
theorem observability_C5_division_guards (lpBq : DbOutcome BqLpRow)
    (moTask : DbOutcome MoTaskRow) (rumiLp : DbOutcome RumiLpRow)
    (trBq : DbOutcome BqTrainRow) (moTrain : DbOutcome MoTrainRow)
    (retBq : DbOutcome BqRetRow) (moRet : DbOutcome MoRetRow)
    (rumiConv : DbOutcome RumiConvRow) :
    allRecords (get_lp_engagement_metrics lpBq moTask rumiLp)
      lpDivGuardB = true ∧
    allRecords (get_training_metrics trBq moTrain) lpDivGuardB = true ∧
    allRecords (get_retention_metrics retBq moRet rumiConv)
      retDivGuardB = true := by
  refine ⟨?_, ?_, ?_⟩
  · simp only [allRecords, get_lp_engagement_metrics, List.all_cons, List.all_nil,
      Bool.and_eq_true, Bool.and_true]
    refine ⟨lpGuard_lpRegionRec _, lpGuard_lpRegionRec _,
      lpGuard_lpRegionRec _, rfl, ?_⟩
    by_cases c : (rumi_get_lesson_plan_metrics rumiLp).unique_teachers = 0 <;>
      simp [lpDivGuardB, findField, c] <;> decide
  · simp only [allRecords, get_training_metrics, List.all_cons, List.all_nil,
      Bool.and_eq_true, Bool.and_true]
    refine ⟨lpGuard_trainRegionRec _, lpGuard_trainRegionRec _,
      lpGuard_trainRegionRec _, ?_, rfl⟩
    by_cases c : (moawin_get_training_progress moTrain).teachers_completed = 0 <;>
      simp [lpDivGuardB, findField, c] <;> decide
  · simp only [allRecords, get_retention_metrics, List.all_cons, List.all_nil,
      Bool.and_eq_true, Bool.and_true]
    exact ⟨retGuard_retRegionRec _, retGuard_retRegionRec _,
      retGuard_retRegionRec _, retGuard_moawinRetentionRec _, rfl⟩

/-- Claim C6: the refresh script's process exit status is 0 exactly when
the snapshot write succeeds and no per-source task failed, and is 1 in
every other case — including a script-level error (uncaught exception in
the snapshot write), for which the script's own docstring promises exit
code 2. No run produces 2: the documented script-error exit code is
unreachable in the code. -/
theorem observability_C6_exit_codes (run : RefreshRun) :
    (refresh_main_exit run = 0 ∨ refresh_main_exit run = 1) ∧
    refresh_main_exit run ≠ 2 ∧
    (refresh_main_exit run = 0 ↔ run.saveOk = true ∧ refresh_failures run = 0) ∧
    refresh_main_exit ⟨[true, true, true, true], false⟩ = 1 := by
  rcases run with ⟨tasks, save⟩
  refine ⟨?_, ?_, ?_, by decide⟩
  · cases save <;> unfold refresh_main_exit <;> split_ifs <;> simp
  · cases save <;> unfold refresh_main_exit <;> split_ifs <;> simp
  · cases save <;> unfold refresh_main_exit <;> split_ifs <;> simp_all <;> omega

/-- Claim C6, witness: a fully successful run exits 0 (by the theorem's
characterization), and the all-tasks-ok run with a failing snapshot
write exits 1. -/
theorem observability_C6_witness :
    refresh_main_exit ⟨[true, true, true, true], true⟩ = 0 ∧
    refresh_main_exit ⟨[true, true, true, true], false⟩ = 1 :=
  ⟨(observability_C6_exit_codes ⟨[true, true, true, true], true⟩).2.2.1.mpr
      ⟨rfl, by decide⟩,
    (observability_C6_exit_codes ⟨[true, true, true, true], false⟩).2.2.2⟩

/-- Claim C7: `clear_all_caches` empties every memoized entry and sets
the freshness timestamp to the current time; `get_last_refresh_time` is
total, lazily initializing the timestamp to "now" on a first read and
returning the stored timestamp unchanged otherwise. -/
theorem observability_C7_cache_layer (now : ℕ) (s : CacheState) :
    (clear_all_caches now s).entries = [] ∧
    (clear_all_caches now s).last_refresh = some now ∧
    (s.last_refresh = none →
      (get_last_refresh_time now s).1 = now ∧
      (get_last_refresh_time now s).2.last_refresh = some now) ∧
    (∀ t, s.last_refresh = some t →
      (get_last_refresh_time now s).1 = t ∧
      (get_last_refresh_time now s).2 = s) := by
  refine ⟨rfl, rfl, ?_, ?_⟩
  · intro h
    simp [get_last_refresh_time, h]
  · intro t h
    simp [get_last_refresh_time, h]

/-- Claim C7, witness: the theorem applied to a never-refreshed state at
time 5 and to a state last refreshed at time 3. -/
theorem observability_C7_witness :
    (get_last_refresh_time 5 ⟨[], none⟩).1 = 5 ∧
    (get_last_refresh_time 5 ⟨[], none⟩).2.last_refresh = some 5 ∧
    (get_last_refresh_time 7 ⟨[], some 3⟩).1 = 3 :=
  ⟨((observability_C7_cache_layer 5 ⟨[], none⟩).2.2.1 rfl).1,
    ((observability_C7_cache_layer 5 ⟨[], none⟩).2.2.1 rfl).2,
    ((observability_C7_cache_layer 7 ⟨[], some 3⟩).2.2.2 3 rfl).1⟩

/-- Claim C8: the RWP entry of `OBSERVATION_BENCHMARKS` is
`coaches = 27, obs_per_day = 4, working_days_per_month = 22`, the
benchmark product is 27 x 4 x 22 = 2376, and for every upstream outcome
the `benchmark_monthly` field of the RWP record of
`get_observation_metrics` is exactly 2376. -/
theorem observability_C8_rwp_benchmark :
    getBench "RWP" = some ⟨27, 4, 22⟩ ∧
    benchMonthlyD "RWP" = 27 * 4 * 22 ∧
    benchMonthlyD "RWP" = 2376 ∧
    ∀ (dbIsl : DbOutcome ℤ) (dbBal : DbOutcome BalObsRow)
      (dbRumi : DbOutcome RumiObsRow),
      findField (findRegion (get_observation_metrics dbIsl dbBal dbRumi) "RWP")
        "benchmark_monthly" = some (.vnum 2376) := by
  refine ⟨by decide, by decide, by decide, ?_⟩
  intro dbIsl dbBal dbRumi
  rfl

/-- Claim C9: for every upstream outcome and every observation-type
filter, each adapter's `get_observation_counts` satisfies
`total = ai_count + human_count`; the `AI Only (Rumi)` filter forces
`human_count = 0` and the `Human Only (Coaches)` filter forces
`ai_count = 0`, in live and fallback branches alike (Balochistan,
Islamabad, Rumi and Moawin adapters). -/
theorem observability_C9_obs_count_invariants (dbB : DbOutcome BalObsRow)
    (dbI : DbOutcome ℤ) (dbR : DbOutcome RumiObsRow) (ot : String) :
    ((bal_get_observation_counts dbB ot).total =
        (bal_get_observation_counts dbB ot).ai_count +
          (bal_get_observation_counts dbB ot).human_count ∧
      (isl_get_observation_counts dbI ot).total =
        (isl_get_observation_counts dbI ot).ai_count +
          (isl_get_observation_counts dbI ot).human_count ∧
      (rumi_get_observation_counts dbR ot).total =
        (rumi_get_observation_counts dbR ot).ai_count +
          (rumi_get_observation_counts dbR ot).human_count ∧
      (moawin_get_observation_counts ot).total =
        (moawin_get_observation_counts ot).ai_count +
          (moawin_get_observation_counts ot).human_count) ∧
    (ot = "AI Only (Rumi)" →
      (bal_get_observation_counts dbB ot).human_count = 0 ∧
      (isl_get_observation_counts dbI ot).human_count = 0 ∧
      (rumi_get_observation_counts dbR ot).human_count = 0 ∧
      (moawin_get_observation_counts ot).human_count = 0) ∧
    (ot = "Human Only (Coaches)" →
      (bal_get_observation_counts dbB ot).ai_count = 0 ∧
      (isl_get_observation_counts dbI ot).ai_count = 0 ∧
      (rumi_get_observation_counts dbR ot).ai_count = 0 ∧
      (moawin_get_observation_counts ot).ai_count = 0) := by
  refine ⟨⟨bal_total_eq dbB ot, isl_total_eq dbI ot, rumi_total_eq dbR ot, rfl⟩,
    ?_, ?_⟩
  · rintro rfl
    rcases dbB with _ | _ | (_ | ⟨r, rest⟩) <;>
      rcases dbR with _ | _ | (_ | ⟨q, qrest⟩) <;>
      simp [bal_get_observation_counts, isl_get_observation_counts,
        rumi_get_observation_counts, moawin_get_observation_counts, queryRows]
  · rintro rfl
    rcases dbB with _ | _ | (_ | ⟨r, rest⟩) <;>
      rcases dbR with _ | _ | (_ | ⟨q, qrest⟩) <;>
      simp [bal_get_observation_counts, isl_get_observation_counts,
        rumi_get_observation_counts, moawin_get_observation_counts, queryRows]

/-- Claim C9, witness: the theorem applied to unreachable upstreams with
the `AI Only (Rumi)`, `Human Only (Coaches)` and default filters. -/
theorem observability_C9_witness :
    (bal_get_observation_counts .unreachable "AI Only (Rumi)").human_count = 0 ∧
    (bal_get_observation_counts .unreachable
      "Human Only (Coaches)").ai_count = 0 ∧
    (bal_get_observation_counts .unreachable "All Observations").total =
      (bal_get_observation_counts .unreachable "All Observations").ai_count +
        (bal_get_observation_counts .unreachable
          "All Observations").human_count :=
  ⟨((observability_C9_obs_count_invariants .unreachable .unreachable
      .unreachable "AI Only (Rumi)").2.1 rfl).1,
    ((observability_C9_obs_count_invariants .unreachable .unreachable
      .unreachable "Human Only (Coaches)").2.2 rfl).1,
    (observability_C9_obs_count_invariants .unreachable .unreachable
      .unreachable "All Observations").1.1⟩

/-- Claim C10: for every upstream outcome, each of the six metric
operations returns a dictionary whose keys are exactly the five regions
of `REGIONS` (ICT, Balochistan, RWP, Moawin, Rumi), in order. -/
theorem observability_C10_region_keys (dbIsl : DbOutcome ℤ)
    (dbBal : DbOutcome BalObsRow) (dbRumi : DbOutcome RumiObsRow)
    (lpBq : DbOutcome BqLpRow) (moTask : DbOutcome MoTaskRow)
    (rumiLp : DbOutcome RumiLpRow) (trBq : DbOutcome BqTrainRow)
    (moTrain : DbOutcome MoTrainRow) (retBq : DbOutcome BqRetRow)
    (moRet : DbOutcome MoRetRow) (rumiConv : DbOutcome RumiConvRow)
    (ictFico : DbOutcome (String → Option ℚ)) (moScores : DbOutcome SubjectRowIn) :
    (get_observation_metrics dbIsl dbBal dbRumi).map Prod.fst = REGIONS ∧
    (get_lp_engagement_metrics lpBq moTask rumiLp).map Prod.fst = REGIONS ∧
    (get_training_metrics trBq moTrain).map Prod.fst = REGIONS ∧
    (get_retention_metrics retBq moRet rumiConv).map Prod.fst = REGIONS ∧
    (get_fico_metrics ictFico).map Prod.fst = REGIONS ∧
    (get_student_learning_metrics moScores).map Prod.fst = REGIONS :=
  ⟨rfl, rfl, rfl, rfl, rfl, rfl⟩
